import Mathlib

/-!
# Verification of the PyEMMA `setup.py` build orchestration

A shallow embedding of the decision logic in `setup.py`:

* the Cython availability probe and the `.pyx` → `.c` source rewriting
  (`extensions`, lines 81–152),
* the OpenMP feature injection (`extensions`, lines 154–162),
* the descriptor assembly with its `pybind11/include` assertion
  (`extensions`, lines 92–142),
* the `sdist` command override (`get_cmdclass`, lines 170–188),
* the module top level that decides, from `sys.argv`, whether the
  invocation is metadata-only and whether dependencies, the git submodule
  update and the lazy extension list are set up (lines 252–287).

External collaborators (the Cython `cythonize` call, the C compiler, the
filesystem, the provider libraries `numpy` and `mdtraj`) enter the model as
explicit parameters: booleans for availability of an import, strings for
the directories they report, and a function parameter for `cythonize`
itself.
-/

namespace PyemmaSetup

/-! ## Python string replacement specialised to `s.replace('.pyx', '.c')`

`setup.py` line 149 runs `s.replace('.pyx', '.c')` on every source path.
Python `str.replace` substitutes every non-overlapping occurrence of the
pattern, scanning left to right.  `replaceFuel` is that scan with an
explicit fuel argument (the fuel `s.length` always suffices, since each
step consumes at least one character). -/

/-- The pattern `'.pyx'` of setup.py line 149, as a character list. -/
def pyxPat : List Char := ['.', 'p', 'y', 'x']

/-- The replacement `'.c'` of setup.py line 149, as a character list. -/
def cPat : List Char := ['.', 'c']

/-- Left-to-right, non-overlapping replacement of `pyxPat` by `cPat`,
fueled scan. -/
def replaceFuel : Nat → List Char → List Char
  | 0, s => s
  | _ + 1, [] => []
  | f + 1, c :: cs =>
    if pyxPat.isPrefixOf (c :: cs) then '.' :: 'c' :: replaceFuel f (cs.drop 3)
    else c :: replaceFuel f cs

/-- Embedding of `s.replace('.pyx', '.c')` (setup.py line 149). -/
def replacePyxC (s : String) : String := ⟨replaceFuel s.data.length s.data⟩

/-! ## Extension descriptors (`setuptools.Extension` keyword arguments) -/

/-- The fields of a `setuptools.Extension` that `setup.py` reads or
writes. -/
structure Extension where
  name : String
  sources : List String
  include_dirs : List String := []
  language : Option String := none
  libraries : List String := []
  library_dirs : List String := []
  extra_compile_args : List String := []
  extra_link_args : List String := []
  define_macros : List (String × Option String) := []
deriving Repr, DecidableEq

/-- The `.pyx` → `.c` rewriting loop of setup.py lines 144–150 (the
`not USE_CYTHON` branch): every source path of every descriptor is passed
through `s.replace('.pyx', '.c')`. -/
def resolveNoCython (exts : List Extension) : List Extension :=
  exts.map fun e => { e with sources := e.sources.map replacePyxC }

/-! ## OpenMP feature injection (setup.py lines 154–162) -/

/-- The body of the `for e in exts` loop in the `if openmp_enabled`
branch: `e.extra_compile_args += ['-fopenmp']`,
`e.extra_link_args += ['-lgomp'] if needs_gomp else []`,
`e.define_macros += [('USE_OPENMP', None)]`. -/
def openmpAdjust (needs_gomp : Bool) (e : Extension) : Extension :=
  { e with
    extra_compile_args := e.extra_compile_args ++ ["-fopenmp"]
    extra_link_args := e.extra_link_args ++ (if needs_gomp then ["-lgomp"] else [])
    define_macros := e.define_macros ++ [("USE_OPENMP", none)] }

/-- Setup.py lines 154–162: if `openmp_enabled`, apply `openmpAdjust` to
every descriptor; otherwise the loop does not execute and the list passes
through unchanged. -/
def injectOpenMP (openmp_enabled needs_gomp : Bool) (exts : List Extension) :
    List Extension :=
  if openmp_enabled then exts.map (openmpAdjust needs_gomp) else exts

/-! ## Lemmas about `replaceFuel` -/

theorem replaceFuel_nil (f : Nat) : replaceFuel f [] = [] := by
  cases f <;> rfl

theorem replaceFuel_of_not_infix (f : Nat) :
    ∀ s : List Char, ¬ (pyxPat <:+: s) → replaceFuel f s = s := by
  induction f with
  | zero => intro s _; rfl
  | succ f ih =>
    intro s hs
    cases s with
    | nil => rfl
    | cons c cs =>
      have hp : pyxPat.isPrefixOf (c :: cs) = false := by
        rcases Bool.eq_false_or_eq_true (pyxPat.isPrefixOf (c :: cs)) with hb | hb
        · exact absurd ((List.isPrefixOf_iff_prefix.mp hb).isInfix) hs
        · exact hb
      rw [show replaceFuel (f + 1) (c :: cs) =
        (if pyxPat.isPrefixOf (c :: cs) then
          '.' :: 'c' :: replaceFuel f (cs.drop 3)
        else c :: replaceFuel f cs) from rfl]
      simp only [hp, Bool.false_eq_true, if_false]
      have : ¬ (pyxPat <:+: cs) := fun h => hs (List.infix_cons h)
      rw [ih cs this]

theorem replaceFuel_append_pyx :
    ∀ (t : List Char), ¬ (pyxPat <:+: t) →
      ∀ f : Nat, t.length + 1 ≤ f →
        replaceFuel f (t ++ pyxPat) = t ++ cPat := by
  intro t
  induction t with
  | nil =>
    intro _ f hf
    match f, hf with
    | f + 1, _ =>
      rw [List.nil_append]
      rw [show replaceFuel (f + 1) pyxPat =
        (if pyxPat.isPrefixOf pyxPat then
          '.' :: 'c' :: replaceFuel f (['p', 'y', 'x'].drop 3)
        else '.' :: replaceFuel f ['p', 'y', 'x']) from rfl]
      rw [if_pos (by decide)]
      simp [replaceFuel_nil, cPat]
  | cons c t' ih =>
    intro ht f hf
    match f, hf with
    | f + 1, hf =>
      have hrec : replaceFuel f (t' ++ pyxPat) = t' ++ cPat := by
        have ht' : ¬ (pyxPat <:+: t') := fun h => ht (List.infix_cons h)
        exact ih ht' f (by simpa using Nat.le_of_succ_le_succ hf)
      have hp : pyxPat.isPrefixOf (c :: (t' ++ pyxPat)) = false := by
        match t' with
        | [] => simp [pyxPat, List.isPrefixOf]
        | [a] => simp [pyxPat, List.isPrefixOf]
        | [a, b] => simp [pyxPat, List.isPrefixOf]
        | a :: b :: d :: t'' =>
          rcases Bool.eq_false_or_eq_true
            (pyxPat.isPrefixOf (c :: (a :: b :: d :: t'' ++ pyxPat))) with hb0 | hb0
          · exfalso
            have hpre : pyxPat <+: c :: a :: b :: d :: (t'' ++ pyxPat) := by
              simpa using List.isPrefixOf_iff_prefix.mp hb0
            rw [pyxPat] at hpre
            rw [List.cons_prefix_cons] at hpre
            obtain ⟨hc, hpre⟩ := hpre
            rw [List.cons_prefix_cons] at hpre
            obtain ⟨ha, hpre⟩ := hpre
            rw [List.cons_prefix_cons] at hpre
            obtain ⟨hb, hpre⟩ := hpre
            rw [List.cons_prefix_cons] at hpre
            obtain ⟨hd, -⟩ := hpre
            refine ht ⟨[], t'', ?_⟩
            simp [pyxPat, ← hc, ← ha, ← hb, ← hd]
          · exact hb0
      rw [List.cons_append, replaceFuel, hp]
      simp only [Bool.false_eq_true, if_false]
      rw [hrec, List.cons_append]

theorem replacePyxC_of_not_infix (s : String) (h : ¬ (pyxPat <:+: s.data)) :
    replacePyxC s = s := by
  rw [replacePyxC, replaceFuel_of_not_infix _ s.data h]

theorem replacePyxC_append_pyx (t : List Char) (h : ¬ (pyxPat <:+: t)) :
    replacePyxC ⟨t ++ pyxPat⟩ = ⟨t ++ cPat⟩ := by
  rw [replacePyxC]
  rw [replaceFuel_append_pyx t h _ (by simp [pyxPat])]

/-! ## The build environment

Everything `setup.py` observes from outside is an explicit input:
`sys.argv`, the filesystem (`.git`, `pybind11/include`), importability of
the capability providers (`Cython`, `mdtraj`, `numpy`), the values the
providers report, the OpenMP probe result of `setup_util.detect_openmp`,
and the exit status of the `git submodule update` subprocess. -/

structure Env where
  /-- `sys.argv`, with the program name at index 0. -/
  argv : List String
  /-- `os.path.exists('.git')`. -/
  gitExists : Bool
  /-- whether `subprocess.check_call("git submodule update --init pybind11")`
  exits with status 0 (line 282). -/
  submoduleUpdateOk : Bool
  /-- whether `from Cython.Build import cythonize` succeeds (line 83). -/
  cythonAvailable : Bool
  /-- whether `import mdtraj` succeeds (line 92). -/
  mdtrajAvailable : Bool
  /-- whether `from numpy import get_include` succeeds (line 93). -/
  numpyAvailable : Bool
  /-- `os.path.exists(pybind_inc)` for the `assert` on line 97. -/
  pybindIncExists : Bool
  /-- the first result of `setup_util.detect_openmp()` (line 90). -/
  openmpEnabled : Bool
  /-- the second result of `setup_util.detect_openmp()` (line 90). -/
  needsGomp : Bool
  /-- `sys.platform.startswith('win')` (line 101). -/
  isWindows : Bool
  /-- `numpy.get_include()` (line 94). -/
  npInc : String
  /-- `mdtraj.capi()['include_dir']` (lines 107, 114). -/
  mdtrajIncludeDir : String
  /-- `mdtraj.capi()['lib_dir']` (line 114). -/
  mdtrajLibDir : String
  /-- `os.path.join(os.path.dirname(__file__), 'pybind11', 'include')`
  (line 96). -/
  pybindInc : String
deriving Repr, DecidableEq

/-- Exceptions `setup.py` can let escape: a failed provider import, the
failed `assert` on line 97, and `subprocess.CalledProcessError` from
line 282. -/
inductive SetupError where
  | importError (modName : String)
  | assertionError
  | calledProcessError
deriving Repr, DecidableEq

/-! ## Descriptor assembly (`extensions()`, setup.py lines 67–164) -/

/-- `clustering_module` (setup.py lines 103–115). -/
def clustering_module (env : Env) : Extension where
  name := "pyemma.coordinates.clustering._ext"
  sources := ["pyemma/coordinates/clustering/src/clustering_module.cpp"]
  include_dirs := [env.mdtrajIncludeDir, env.npInc, env.pybindInc,
    "pyemma/coordinates/clustering/include"]
  language := some "c++"
  libraries := [(if env.isWindows then "lib" else "") ++ "theobald"]
  library_dirs := [env.mdtrajLibDir]
  extra_compile_args := ["-std=c++11", "-O3", "-fvisibility=hidden"]

/-- `covar_module` (setup.py lines 117–124). -/
def covar_module (env : Env) : Extension where
  name := "pyemma._ext.variational.estimators.covar_c._covartools"
  sources := ["pyemma/_ext/variational/estimators/covar_c/covartools.cpp"]
  include_dirs := ["pyemma/_ext/variational/estimators/covar_c/",
    env.npInc, env.pybindInc]
  extra_compile_args := ["-std=c++11", "-O3", "-fvisibility=hidden"]

/-- `eig_qr_module` (setup.py lines 126–130). -/
def eig_qr_module (env : Env) : Extension where
  name := "pyemma._ext.variational.solvers.eig_qr.eig_qr"
  sources := ["pyemma/_ext/variational/solvers/eig_qr/eig_qr.pyx"]
  include_dirs := ["pyemma/_ext/variational/solvers/eig_qr/", env.npInc]
  extra_compile_args := ["-std=c99", "-O3"]

/-- `orderedset` (setup.py lines 132–136). -/
def orderedset_module (env : Env) : Extension where
  name := "pyemma._ext.orderedset._orderedset"
  sources := ["pyemma/_ext/orderedset/_orderedset.pyx"]
  include_dirs := [env.npInc]
  extra_compile_args := ["-O3"]

/-- The result of a successful `extensions()` call: the `USE_CYTHON` flag
chosen by the probe, the warnings emitted on the way, and the final
descriptor list. -/
structure ExtResult where
  use_cython : Bool
  warnings : List String
  exts : List Extension
deriving Repr, DecidableEq

/-- The warning text of setup.py line 86. -/
def cythonWarning : String := "Cython not found. Using pre cythonized files."

/-- The warning text of setup.py line 155. -/
def openmpWarning : String := "enabled openmp"

/-- Embedding of `extensions()` (setup.py lines 67–164).  `cythonizeFn`
stands for the external `Cython.Build.cythonize`; it is only invoked when
the probe succeeded.  The steps follow the source order: Cython probe
(81–86), `detect_openmp` (89–90), provider imports (92–94), the
`pybind11/include` assertion (96–97), assembly of the four descriptors
(99–142), source-form resolution (144–152) and OpenMP injection
(154–162). -/
def extensionsRun (cythonizeFn : List Extension → List Extension)
    (env : Env) : Except SetupError ExtResult :=
  let use_cython := env.cythonAvailable
  let w1 : List String := if env.cythonAvailable then [] else [cythonWarning]
  if env.mdtrajAvailable = false then .error (.importError "mdtraj")
  else if env.numpyAvailable = false then .error (.importError "numpy")
  else if env.pybindIncExists = false then .error .assertionError
  else
    let exts0 := [clustering_module env, covar_module env,
      eig_qr_module env, orderedset_module env]
    let exts1 := if use_cython then cythonizeFn exts0 else resolveNoCython exts0
    let w2 : List String := if env.openmpEnabled then [openmpWarning] else []
    let exts2 := injectOpenMP env.openmpEnabled env.needsGomp exts1
    .ok { use_cython := use_cython, warnings := w1 ++ w2, exts := exts2 }

/-! ## Module top level (setup.py lines 252–287) -/

/-- The condition on setup.py lines 252–255:
`len(sys.argv) == 1 or (len(sys.argv) >= 2 and ('--help' in sys.argv[1:]
or sys.argv[1] in ('--help-commands', '--version', 'clean')))`. -/
def metadataOnly (argv : List String) : Bool :=
  argv.length == 1 ||
    (decide (2 ≤ argv.length) &&
      ((argv.drop 1).contains "--help" ||
        (match argv with
         | _ :: a1 :: _ =>
           a1 == "--help-commands" || a1 == "--version" || a1 == "clean"
         | _ => false)))

/-- What the top-level code decides before calling `setup(**metadata)`:
whether `metadata['setup_requires']` was set (and to what), whether the
extended `package_data` was installed, which `git submodule` commands were
issued, and whether `metadata['ext_modules']` was set to the lazy wrapper
around `extensions` (the wrapper stores the callback without invoking
it). -/
structure SetupConfig where
  setupRequires : Option (List String)
  fullPackageData : Bool
  submoduleCalls : List (List String)
  extModulesSet : Bool
deriving Repr, DecidableEq

/-- `metadata['setup_requires']` of line 259. -/
def baseSetupRequires : List String := ["numpy>=1.7.0", "scipy", "mdtraj>=1.7.0"]

/-- The subprocess command of lines 280–282:
`"git submodule update --init pybind11".split(' ')`. -/
def submoduleCmd : List String := ["git", "submodule", "update", "--init", "pybind11"]

/-- The state after the metadata-only branch (line 256): the `pass`
leaves `setup_requires`, the extended `package_data` and `ext_modules`
unset and runs nothing. -/
def skipConfig : SetupConfig :=
  { setupRequires := none, fullPackageData := false, submoduleCalls := [], extModulesSet := false }

/-- The state after the build branch inside a git checkout (lines
258–285): dependencies plus the Cython requirement, the submodule
update issued, `ext_modules` set to the lazy wrapper. -/
def gitBuildConfig : SetupConfig :=
  { setupRequires := some (baseSetupRequires ++ ["cython>=0.22"]), fullPackageData := true,
    submoduleCalls := [submoduleCmd], extModulesSet := true }

/-- The state after the build branch outside a git checkout (lines
258–270, 285). -/
def plainBuildConfig : SetupConfig :=
  { setupRequires := some baseSetupRequires, fullPackageData := true,
    submoduleCalls := [], extModulesSet := true }

/-- Embedding of the top level of setup.py, lines 252–287, up to (and
excluding) the `setup(**metadata)` call.  In the metadata-only branch
(line 256) nothing is set; otherwise `setup_requires` and the full
`package_data` are set, and if `.git` exists the Cython requirement is
added and `git submodule update --init pybind11` is run through
`subprocess.check_call`, whose non-zero exit raises an uncaught
`CalledProcessError` before `ext_modules` is assigned.  The extension
builder `extensionsRun` itself is never evaluated here: line 285 only
wraps it lazily. -/
def topLevel (env : Env) : Except SetupError SetupConfig :=
  if metadataOnly env.argv then .ok skipConfig
  else if env.gitExists then
    if env.submoduleUpdateOk then .ok gitBuildConfig
    else .error .calledProcessError
  else .ok plainBuildConfig

/-! ## The `sdist` command override (setup.py lines 171–186) -/

/-- Observable outcome of `sdist.run`: whether the "Not on git" message
was printed, whether `cythonize(extensions())` ran, whether the
`'sdist cythonize failed'` warning was emitted, and whether the base
`sdist_class.run` was delegated to. -/
structure SdistResult where
  printedNotOnGit : Bool
  cythonized : Bool
  warnedCythonizeFailed : Bool
  ranBaseSdist : Bool
deriving Repr, DecidableEq

/-- The early return of lines 176–178: message printed, nothing else. -/
def sdistSkipResult : SdistResult :=
  { printedNotOnGit := true, cythonized := false, warnedCythonizeFailed := false,
    ranBaseSdist := false }

/-- The successful path of lines 181–183 and 186. -/
def sdistOkResult : SdistResult :=
  { printedNotOnGit := false, cythonized := true, warnedCythonizeFailed := false,
    ranBaseSdist := true }

/-- The caught-`ImportError` path of lines 184–186. -/
def sdistWarnResult : SdistResult :=
  { printedNotOnGit := false, cythonized := false, warnedCythonizeFailed := true,
    ranBaseSdist := true }

/-- Embedding of `sdist.run` (setup.py lines 174–186).  Without `.git` it
prints and returns (lines 176–178).  Otherwise the `try` block imports
`cythonize` and runs it on `extensions()`; an `ImportError` (from the
Cython import itself or from the provider imports inside `extensions`)
is caught and downgraded to a warning (lines 184–185); any other
exception (the line 97 assertion) propagates; on both the success and the
caught-`ImportError` path the base command runs (line 186). -/
def sdistRun (cythonizeFn : List Extension → List Extension)
    (env : Env) : Except SetupError SdistResult :=
  if env.gitExists = false then .ok sdistSkipResult
  else if env.cythonAvailable then
    match extensionsRun cythonizeFn env with
    | .ok _ => .ok sdistOkResult
    | .error (.importError _) => .ok sdistWarnResult
    | .error e => .error e
  else .ok sdistWarnResult

/-! ## Concrete environments used by the witnesses -/

/-- A fully provisioned build environment. -/
def envBase : Env where
  argv := ["setup.py", "install"]
  gitExists := false
  submoduleUpdateOk := true
  cythonAvailable := true
  mdtrajAvailable := true
  numpyAvailable := true
  pybindIncExists := true
  openmpEnabled := false
  needsGomp := false
  isWindows := false
  npInc := "/np/include"
  mdtrajIncludeDir := "/mdtraj/include"
  mdtrajLibDir := "/mdtraj/lib"
  pybindInc := "pybind11/include"

/-- A metadata-only invocation with every optional capability absent. -/
def envVersionOnly : Env where
  argv := ["setup.py", "--version"]
  gitExists := false
  submoduleUpdateOk := false
  cythonAvailable := false
  mdtrajAvailable := false
  numpyAvailable := false
  pybindIncExists := false
  openmpEnabled := false
  needsGomp := false
  isWindows := false
  npInc := ""
  mdtrajIncludeDir := ""
  mdtrajLibDir := ""
  pybindInc := ""

/-! ## Claim theorems -/

/-- **C1, counterexample.** The claim says the translator-unavailable
resolution step leaves every source path that does not end in `'.pyx'`
untouched.  It does not: `'x.pyxy'` does not have `'.pyx'` as a suffix,
yet `s.replace('.pyx', '.c')` rewrites its interior occurrence, so the
descriptor set `[{sources = ['x.pyxy']}]` comes back changed. -/
theorem resolveNoCython_not_suffix_targeted :
    ¬ (pyxPat <:+ "x.pyxy".data) ∧
    resolveNoCython [{ name := "m", sources := ["x.pyxy"] }] =
      [{ name := "m", sources := ["x.cy"] }] ∧
    ("x.cy" : String) ≠ "x.pyxy" := by
  refine ⟨by decide, by decide, by decide⟩

/-- **C1, amended.** When the translator is unavailable, the resolution
step passes every source path of every descriptor through Python
`s.replace('.pyx', '.c')`, which substitutes every non-overlapping
occurrence of `'.pyx'` (not only a trailing one).  Consequently a path
containing no occurrence of `'.pyx'` is untouched, and a path whose only
occurrence of `'.pyx'` is its suffix maps to the same base name with
`'.c'`. -/
theorem resolveNoCython_replace_all_spec :
    (∀ exts : List Extension, resolveNoCython exts =
      exts.map fun e => { e with sources := e.sources.map replacePyxC }) ∧
    (∀ s : String, ¬ (pyxPat <:+: s.data) → replacePyxC s = s) ∧
    (∀ t : List Char, ¬ (pyxPat <:+: t) →
      replacePyxC ⟨t ++ pyxPat⟩ = ⟨t ++ cPat⟩) :=
  ⟨fun _ => rfl, replacePyxC_of_not_infix, replacePyxC_append_pyx⟩

/-- Witness for C1: the two interesting conjuncts evaluated on a
`.pyx`-suffixed path and on a `.cpp` path drawn from the real descriptor
set. -/
theorem resolveNoCython_replace_all_spec_witness :
    replacePyxC ⟨"pyemma/_ext/orderedset/_orderedset".data ++ pyxPat⟩ =
      ⟨"pyemma/_ext/orderedset/_orderedset".data ++ cPat⟩ ∧
    replacePyxC "pyemma/coordinates/clustering/src/clustering_module.cpp" =
      "pyemma/coordinates/clustering/src/clustering_module.cpp" :=
  ⟨resolveNoCython_replace_all_spec.2.2 _ (by decide),
   resolveNoCython_replace_all_spec.2.1 _ (by decide)⟩

/-- **C2.** With OpenMP detected, the injection step rewrites every
descriptor uniformly through `openmpAdjust` (no opt-out), and
`openmpAdjust` appends `'-fopenmp'` to the extra compiler arguments
exactly once, appends `'-lgomp'` to the extra linker arguments if and
only if `needs_gomp`, and adds exactly one `('USE_OPENMP', None)`
preprocessor define. -/
theorem injectOpenMP_enabled_appends_once :
    ∀ (needs_gomp : Bool) (exts : List Extension),
      injectOpenMP true needs_gomp exts = exts.map (openmpAdjust needs_gomp) ∧
      ∀ e : Extension,
        (openmpAdjust needs_gomp e).extra_compile_args =
          e.extra_compile_args ++ ["-fopenmp"] ∧
        (openmpAdjust needs_gomp e).extra_compile_args.count "-fopenmp" =
          e.extra_compile_args.count "-fopenmp" + 1 ∧
        (openmpAdjust needs_gomp e).extra_link_args =
          e.extra_link_args ++ (if needs_gomp then ["-lgomp"] else []) ∧
        (openmpAdjust needs_gomp e).extra_link_args.count "-lgomp" =
          e.extra_link_args.count "-lgomp" + (if needs_gomp then 1 else 0) ∧
        (openmpAdjust needs_gomp e).define_macros =
          e.define_macros ++ [("USE_OPENMP", none)] ∧
        (openmpAdjust needs_gomp e).define_macros.count ("USE_OPENMP", none) =
          e.define_macros.count ("USE_OPENMP", none) + 1 := by
  intro needs_gomp exts
  refine ⟨rfl, fun e => ⟨rfl, ?_, rfl, ?_, rfl, ?_⟩⟩
  · simp [openmpAdjust, List.count_append]
  · cases needs_gomp <;> simp [openmpAdjust, List.count_append]
  · simp [openmpAdjust, List.count_append]

/-- **C4.** With OpenMP not detected, the injection step is the
identity on the whole descriptor list (hence on every descriptor's extra
compiler arguments, extra linker arguments and defines). -/
theorem injectOpenMP_disabled_identity :
    ∀ (needs_gomp : Bool) (exts : List Extension),
      injectOpenMP false needs_gomp exts = exts := by
  intro needs_gomp exts
  simp [injectOpenMP]

/-- **C3.** For every metadata-only invocation, the top level sets
neither `setup_requires` nor `ext_modules`, runs no submodule update,
and succeeds — for every environment, in particular ones in which every
capability provider is absent, since the extension builder is never
consulted on this path. -/
theorem metadataOnly_skips_build_declarations (env : Env)
    (h : metadataOnly env.argv = true) :
    topLevel env = .ok skipConfig := by
  rw [topLevel, if_pos h]

/-- Witness for C3: `setup.py --version` with no git checkout, no Cython,
no mdtraj, no numpy and no pybind11 directory still succeeds and declares
nothing. -/
theorem metadataOnly_skips_build_declarations_witness :
    topLevel envVersionOnly = .ok skipConfig :=
  metadataOnly_skips_build_declarations envVersionOnly (by decide)

/-- **C5.** Outside a git checkout, the `sdist` override prints the
informational message and returns: no cythonize call, no delegation to
the base `sdist` command, and no exception. -/
theorem sdistRun_no_git_noop (f : List Extension → List Extension)
    (env : Env) (h : env.gitExists = false) :
    sdistRun f env = .ok sdistSkipResult := by
  rw [sdistRun, if_pos h]

/-- Witness for C5 on a concrete environment. -/
theorem sdistRun_no_git_noop_witness :
    sdistRun id { envBase with gitExists := false } = .ok sdistSkipResult :=
  sdistRun_no_git_noop id { envBase with gitExists := false } rfl

/-- **C6.** Inside a git checkout, a failing Cython import in the
`sdist` override is caught and downgraded to the warning, and the base
`sdist` command still runs; on the success path the base command runs as
well. -/
theorem sdistRun_git_cython_missing_delegates
    (f : List Extension → List Extension) (env : Env)
    (h : env.gitExists = true) :
    (env.cythonAvailable = false →
      sdistRun f env = .ok sdistWarnResult) ∧
    (env.cythonAvailable = true → (extensionsRun f env).isOk = true →
      sdistRun f env = .ok sdistOkResult) := by
  constructor
  · intro hc
    rw [sdistRun, if_neg (by simp [h]), if_neg (by simp [hc])]
  · intro hc hok
    rw [sdistRun, if_neg (by simp [h]), if_pos (by simp [hc])]
    cases hres : extensionsRun f env with
    | ok r => rfl
    | error e => rw [hres] at hok; simp [Except.isOk, Except.toBool] at hok

/-- Witness for C6: both the import-failure path and the success path on
concrete git-checkout environments. -/
theorem sdistRun_git_cython_missing_delegates_witness :
    sdistRun id { envBase with gitExists := true, cythonAvailable := false } =
      .ok sdistWarnResult ∧
    sdistRun id { envBase with gitExists := true } = .ok sdistOkResult :=
  ⟨(sdistRun_git_cython_missing_delegates id
      { envBase with gitExists := true, cythonAvailable := false } rfl).1 rfl,
   (sdistRun_git_cython_missing_delegates id
      { envBase with gitExists := true } rfl).2 rfl (by decide)⟩

/-- **C7.** The Cython probe never raises: whenever the rest of the
assembly can proceed (providers importable, pybind11 directory present),
`extensions()` succeeds for both outcomes of the Cython import, records
`USE_CYTHON` as exactly the import outcome, and emits the non-fatal
warning precisely when the import failed. -/
theorem cython_probe_never_raises (f : List Extension → List Extension)
    (env : Env) (hm : env.mdtrajAvailable = true)
    (hn : env.numpyAvailable = true) (hp : env.pybindIncExists = true) :
    ∃ r : ExtResult, extensionsRun f env = .ok r ∧
      r.use_cython = env.cythonAvailable ∧
      (cythonWarning ∈ r.warnings ↔ env.cythonAvailable = false) := by
  rw [extensionsRun]
  rw [if_neg (by simp [hm]), if_neg (by simp [hn]), if_neg (by simp [hp])]
  refine ⟨_, rfl, rfl, ?_⟩
  cases hc : env.cythonAvailable <;>
    cases ho : env.openmpEnabled <;>
      simp [cythonWarning, openmpWarning]

/-- Witness for C7: the fully provisioned environment, with Cython
available and with Cython absent, via the theorem applied at
`envBase`. -/
theorem cython_probe_never_raises_witness :
    (∃ r : ExtResult, extensionsRun id envBase = .ok r ∧
      r.use_cython = envBase.cythonAvailable ∧
      (cythonWarning ∈ r.warnings ↔ envBase.cythonAvailable = false)) :=
  cython_probe_never_raises id envBase rfl rfl rfl

/-- **C8.** With the provider imports succeeding, descriptor assembly is
decided by the `pybind11/include` existence check: absent directory means
`extensions()` raises the assertion and produces no descriptor set;
present directory means assembly succeeds. -/
theorem pybind_include_assert (f : List Extension → List Extension)
    (env : Env) (hm : env.mdtrajAvailable = true)
    (hn : env.numpyAvailable = true) :
    (env.pybindIncExists = false →
      extensionsRun f env = .error .assertionError) ∧
    (env.pybindIncExists = true → ∃ r, extensionsRun f env = .ok r) := by
  constructor
  · intro hp
    rw [extensionsRun, if_neg (by simp [hm]), if_neg (by simp [hn]),
      if_pos hp]
  · intro hp
    rw [extensionsRun, if_neg (by simp [hm]), if_neg (by simp [hn]),
      if_neg (by simp [hp])]
    exact ⟨_, rfl⟩

/-- Witness for C8: the assertion fires with the directory absent, and
assembly succeeds with it present. -/
theorem pybind_include_assert_witness :
    extensionsRun id { envBase with pybindIncExists := false } =
      .error .assertionError ∧
    ∃ r, extensionsRun id envBase = .ok r :=
  ⟨(pybind_include_assert id { envBase with pybindIncExists := false }
      rfl rfl).1 rfl,
   (pybind_include_assert id envBase rfl rfl).2 rfl⟩

/-- **C9.** On every non-metadata-only invocation inside a git checkout,
the top level issues `git submodule update --init pybind11` through
`subprocess.check_call` before `setup` runs; a non-zero exit raises an
uncaught `CalledProcessError` aborting the invocation before any build
declaration takes effect. -/
theorem submodule_update_fatal (env : Env)
    (h1 : metadataOnly env.argv = false) (h2 : env.gitExists = true) :
    (env.submoduleUpdateOk = true → topLevel env = .ok gitBuildConfig) ∧
    (env.submoduleUpdateOk = false →
      topLevel env = .error .calledProcessError) := by
  constructor
  · intro hs
    rw [topLevel, if_neg (by simp [h1]), if_pos (by simp [h2]), if_pos hs]
  · intro hs
    rw [topLevel, if_neg (by simp [h1]), if_pos (by simp [h2]),
      if_neg (by simp [hs])]

/-- Witness for C9: a `setup.py install` inside a checkout, with the
submodule update succeeding and with it failing. -/
theorem submodule_update_fatal_witness :
    topLevel { envBase with gitExists := true } = .ok gitBuildConfig ∧
    topLevel { envBase with gitExists := true, submoduleUpdateOk := false } =
      .error .calledProcessError :=
  ⟨(submodule_update_fatal { envBase with gitExists := true }
      (by decide) rfl).1 rfl,
   (submodule_update_fatal
      { envBase with gitExists := true, submoduleUpdateOk := false }
      (by decide) rfl).2 rfl⟩

/-- **C10.** The metadata-only detection is position-sensitive:
`'--help'` is recognised anywhere after the program name, while
`'--help-commands'`, `'--version'` and `'clean'` only count as the first
argument; in particular `setup.py build --version` is a full build, with
`setup_requires` and `ext_modules` both set. -/
theorem metadataOnly_position_sensitive :
    (∀ (prog : String) (args : List String), "--help" ∈ args →
      metadataOnly (prog :: args) = true) ∧
    (∀ (prog a1 : String) (rest : List String),
      a1 = "--help-commands" ∨ a1 = "--version" ∨ a1 = "clean" →
      metadataOnly (prog :: a1 :: rest) = true) ∧
    (∀ (prog a1 : String) (rest : List String),
      "--help" ∉ a1 :: rest → a1 ≠ "--help-commands" → a1 ≠ "--version" →
      a1 ≠ "clean" → metadataOnly (prog :: a1 :: rest) = false) ∧
    metadataOnly ["setup.py", "build", "--version"] = false ∧
    topLevel { envBase with argv := ["setup.py", "build", "--version"] } =
      .ok plainBuildConfig := by
  refine ⟨?_, ?_, ?_, by decide, ?_⟩
  · intro prog args hmem
    match args, List.ne_nil_of_mem hmem with
    | a :: rest, _ =>
      have hc : ((a :: rest).contains "--help") = true :=
        List.elem_iff.mpr hmem
      simp [metadataOnly, hc]
      exact Or.inl (List.mem_cons.mp hmem)
  · rintro prog a1 rest (rfl | rfl | rfl) <;> simp [metadataOnly]
  · intro prog a1 rest hmem h1 h2 h3
    have hc : ((a1 :: rest).contains "--help") = false := by
      rcases Bool.eq_false_or_eq_true ((a1 :: rest).contains "--help") with
        hb | hb
      · exact absurd (List.elem_iff.mp hb) hmem
      · exact hb
    simp [metadataOnly, hc, h1, h2, h3]
    refine ⟨fun h => hmem ?_, fun h => hmem ?_⟩
    · exact h ▸ List.mem_cons_self _ _
    · exact List.mem_cons_of_mem _ h
  · rw [topLevel, if_neg (by decide), if_neg (by simp [envBase])]

/-- Witness for C10: each quantified conjunct at a concrete argv. -/
theorem metadataOnly_position_sensitive_witness :
    metadataOnly ["setup.py", "build", "--help"] = true ∧
    metadataOnly ["setup.py", "clean", "all"] = true ∧
    metadataOnly ["setup.py", "build", "clean"] = false :=
  ⟨metadataOnly_position_sensitive.1 "setup.py" ["build", "--help"]
      (by decide),
   metadataOnly_position_sensitive.2.1 "setup.py" "clean" ["all"]
      (Or.inr (Or.inr rfl)),
   metadataOnly_position_sensitive.2.2.1 "setup.py" "build" ["clean"]
      (by decide) (by decide) (by decide) (by decide)⟩

end PyemmaSetup
